import Mathlib

/-!
# Verification of the input-tracking and click-through arbitration subsystem

Shallow embedding of the overlay arbiter and device-reader integration of the
3D_Character repository:

* `Interactions` — the renderer poll loop `checkMousePosition` and hit test
  `isPointInRect` from `src/renderer/modules/interactions.ts` (Electron
  polling iteration).
* `Wiggle` — the `cursor-pos` listener, `checkWiggleAndEvade` and
  `performEvasion` from `src/renderer/modules/interactions.ts` (wiggle
  detection iteration).
* `Monitor` — `CursorMonitor.handleHelperEvent`, the helper exit/error
  handlers, `getCursorPosition` and `checkCursor` from
  `src/main/services/cursor-monitor.ts`.
* `Reader` — the device reader's cursor accumulation (modelled from the
  spec; the Rust helper's source is not part of the checked tree).

Machine numbers are modelled as `Int` (JavaScript number arithmetic on the
integer values these programs manipulate is exact in the ranges involved).
Side effects are made explicit: a DOM/IPC call becomes a value in a returned
action list, and mutable module state becomes a record threaded through the
step functions.
-/

namespace Interactions

/-- Result of `getBoundingClientRect` for a DOM element, in window-local
coordinates. -/
structure DomRect where
  left : Int
  right : Int
  top : Int
  bottom : Int
deriving DecidableEq, Repr

/-- The slice of a DOM element consulted by the hit test: its id, whether its
class list contains `hidden`, and its bounding rectangle. -/
structure Element where
  id : String
  hidden : Bool
  rect : DomRect
deriving DecidableEq, Repr

/-- `isPointInRect(x, y, el)`: `false` for a missing or hidden element; the
settings panel counts as hit whenever visible; otherwise an inclusive
point-in-rectangle test against `getBoundingClientRect`. -/
def isPointInRect (x y : Int) (el : Option Element) : Bool :=
  match el with
  | none => false
  | some e =>
    if e.hidden then false
    else if e.id = "settings-panel" && !e.hidden then true
    else decide (x ≥ e.rect.left) && decide (x ≤ e.rect.right) &&
         decide (y ≥ e.rect.top) && decide (y ≤ e.rect.bottom)

/-- The inputs one iteration of `checkMousePosition` reads: the global cursor
sample, the window bounds origin, the drag flag from the store, and the five
DOM elements it queries. -/
structure PollEnv where
  cursorX : Int
  cursorY : Int
  winX : Int
  winY : Int
  isDragging : Bool
  character : Option Element
  backpack : Option Element
  speechBubble : Option Element
  chatInputContainer : Option Element
  settingsPanel : Option Element
deriving DecidableEq, Repr

/-- The two forms of the native call issued by the poll loop:
`setIgnoreMouseEvents(false)` (capture) and
`setIgnoreMouseEvents(true, \x7b forward: true \x7d)` (pass-through). -/
inductive MouseCall where
  | ignoreOff
  | ignoreOnForward
deriving DecidableEq, Repr

/-- The capture flag a call applies to the window: `ignoreOff` makes the
window accept pointer input. -/
def MouseCall.captures : MouseCall → Bool
  | .ignoreOff => true
  | .ignoreOnForward => false

/-- One iteration of `checkMousePosition`, returning the
`setIgnoreMouseEvents` call it issues, or `none` when it issues no call
(the dragging early return). -/
def checkMousePosition (env : PollEnv) : Option MouseCall :=
  let localX := env.cursorX - env.winX
  let localY := env.cursorY - env.winY
  if env.isDragging then
    none
  else if (match env.settingsPanel with
           | some e => !e.hidden
           | none => false) then
    some .ignoreOff
  else if (isPointInRect localX localY env.character ||
           isPointInRect localX localY env.backpack ||
           isPointInRect localX localY env.speechBubble ||
           isPointInRect localX localY env.chatInputContainer) then
    some .ignoreOff
  else
    some .ignoreOnForward

/-- The window's applied input mode after an iteration: a tick that issues no
call leaves the previously applied capture flag in place. -/
def appliedAfter (env : PollEnv) (applied : Bool) : Bool :=
  match checkMousePosition env with
  | none => applied
  | some c => c.captures

/-- The calls issued by `n` consecutive iterations over an unchanged
environment (the poll loop re-runs `checkMousePosition` on a timer). -/
def pollCalls (env : PollEnv) : Nat → List MouseCall
  | 0 => []
  | n + 1 =>
    match checkMousePosition env with
    | none => pollCalls env n
    | some c => c :: pollCalls env n

/-- Spec-side predicate: the settings panel element exists and is not
hidden. -/
def settingsOpen (env : PollEnv) : Bool :=
  match env.settingsPanel with
  | some e => !e.hidden
  | none => false

/-- Spec-side predicate: some interactive region (character, backpack,
speech bubble, chat input) is visible and contains the window-local cursor
sample. -/
def someRegionHit (env : PollEnv) : Bool :=
  let localX := env.cursorX - env.winX
  let localY := env.cursorY - env.winY
  isPointInRect localX localY env.character ||
  isPointInRect localX localY env.backpack ||
  isPointInRect localX localY env.speechBubble ||
  isPointInRect localX localY env.chatInputContainer

end Interactions

namespace Wiggle

/-- Wiggle detection parameter: bound on the history length. -/
def WIGGLE_HISTORY_SIZE : Nat := 20

/-- Wiggle detection parameter: direction changes counted as a wiggle. -/
def WIGGLE_THRESHOLD : Nat := 8

/-- Wiggle detection parameter: history time window in milliseconds. -/
def WIGGLE_TIME_WINDOW : Int := 1000

/-- Wiggle detection parameter: evasion cooldown in milliseconds. -/
def EVASION_COOLDOWN : Int := 5000

/-- Wiggle detection parameter: proximity radius around the character in
pixels. -/
def PROXIMITY_THRESHOLD : Int := 300

/-- One entry of `cursorHistory`: a cursor sample with its arrival time. -/
structure Sample where
  x : Int
  y : Int
  t : Int
deriving DecidableEq, Repr

/-- The module-level mutable state of the wiggle detector: `cursorHistory`,
`lastEvasionTime`, and an instrumentation counter recording how many times
`performEvasion` has run. -/
structure WiggleState where
  history : List Sample
  lastEvasionTime : Int
  evasionCount : Nat
deriving DecidableEq, Repr

/-- Initial module state: empty history, `lastEvasionTime = 0`. -/
def initWiggleState : WiggleState :=
  { history := [], lastEvasionTime := 0, evasionCount := 0 }

/-- The ambient conditions `checkWiggleAndEvade` reads: the store's window
lock, the `screensaver-mode` and `drag-mode-active` body classes, the window
position and size used for the proximity test, and (for stating claims about
the settings panel) whether the settings panel is open — the function itself
never consults that last flag. -/
structure WiggleEnv where
  isWindowLocked : Bool
  screensaverMode : Bool
  dragModeActive : Bool
  settingsPanelOpen : Bool
  windowPosX : Int
  windowPosY : Int
  windowWidth : Int
  windowHeight : Int
deriving DecidableEq, Repr

/-- The consecutive horizontal deltas `cursorHistory[i].x - cursorHistory[i-1].x`
of the history. -/
def deltasX : List Sample → List Int
  | a :: b :: rest => (b.x - a.x) :: deltasX (b :: rest)
  | _ => []

/-- The direction-change counting loop: deltas below the 5-pixel jitter
minimum are skipped; a counted delta whose sign differs from the previous
counted delta's sign increments the counter. -/
def dirChangeLoop : List Int → Int → Nat → Nat
  | [], _, acc => acc
  | d :: rest, lastDirX, acc =>
    if d.natAbs < 5 then dirChangeLoop rest lastDirX acc
    else
      let currentDirX := d.sign
      let acc' := if lastDirX ≠ 0 && currentDirX ≠ lastDirX then acc + 1 else acc
      dirChangeLoop rest currentDirX acc'

/-- `directionChanges` as computed by the loop in `checkWiggleAndEvade`. -/
def directionChanges (hist : List Sample) : Nat :=
  dirChangeLoop (deltasX hist) 0 0

/-- `performEvasion`: records the evasion time and (in this model) counts
the triggered fade/reposition sequence. -/
def performEvasion (st : WiggleState) (now : Int) : WiggleState :=
  { st with lastEvasionTime := now, evasionCount := st.evasionCount + 1 }

/-- `checkWiggleAndEvade(currentX, currentY, now)`: returns the state
unchanged on the cooldown, window-locked, screensaver and drag-mode guards
and on the proximity and threshold tests failing; otherwise performs the
evasion.  The proximity comparison `sqrt(dx^2+dy^2) > 300` is encoded
exactly over integers by doubling all coordinates (the window centre
`pos + size/2` may lie on a half pixel). -/
def checkWiggleAndEvade (env : WiggleEnv) (st : WiggleState)
    (currentX currentY now : Int) : WiggleState :=
  if now - st.lastEvasionTime < EVASION_COOLDOWN then st
  else if env.isWindowLocked then st
  else if env.screensaverMode then st
  else if env.dragModeActive then st
  else
    let centerX2 := 2 * env.windowPosX + env.windowWidth
    let centerY2 := 2 * env.windowPosY + env.windowHeight
    let dx2 := 2 * currentX - centerX2
    let dy2 := 2 * currentY - centerY2
    if dx2 * dx2 + dy2 * dy2 > 4 * (PROXIMITY_THRESHOLD * PROXIMITY_THRESHOLD) then st
    else if directionChanges st.history ≥ WIGGLE_THRESHOLD then
      performEvasion st now
    else st

/-- The history maintenance of the `cursor-pos` listener: push the sample,
prune entries outside the time window (`now - p.t < WIGGLE_TIME_WINDOW`),
and drop the oldest entry when the bound is exceeded (`shift()`). -/
def updatedHistory (hist0 : List Sample) (s : Sample) : List Sample :=
  let pushed := hist0 ++ [s]
  let pruned := pushed.filter (fun p => s.t - p.t < WIGGLE_TIME_WINDOW)
  if pruned.length > WIGGLE_HISTORY_SIZE then pruned.drop 1 else pruned

/-- The `cursor-pos` listener body: maintain the history, then run the
wiggle check once more than ten entries are retained. -/
def processCursorSample (env : WiggleEnv) (st : WiggleState) (s : Sample) :
    WiggleState :=
  let hist := updatedHistory st.history s
  let st' := { st with history := hist }
  if hist.length > 10 then checkWiggleAndEvade env st' s.x s.y s.t else st'

/-- The listener applied to a whole sequence of cursor samples. -/
def processCursorSamples (env : WiggleEnv) (st : WiggleState)
    (samples : List Sample) : WiggleState :=
  samples.foldl (processCursorSample env) st

end Wiggle

namespace Monitor

/-- The event types carried by the helper's JSON lines.  `other` stands for a
parsed object whose `type` matches none of the switch cases. -/
inductive HelperEventType where
  | ready
  | cursor
  | shortcut
  | click
  | heartbeat
  | error
  | other
deriving DecidableEq, Repr

/-- A parsed helper event: the `type` tag plus the optional fields the
handler reads (`x`, `y`, `name`, `message`, device counts). -/
structure HelperEvent where
  type : HelperEventType
  x : Option Int
  y : Option Int
  name : Option String
  message : Option String
  miceCount : Option Nat
  keyboardsCount : Option Nat
deriving DecidableEq, Repr

/-- One line received from the helper's stdout: either it parses to an event
or `JSON.parse` throws (malformed or partial line). -/
inductive HelperLine where
  | malformed
  | parsed (e : HelperEvent)
deriving DecidableEq, Repr

/-- The `CursorMonitor` fields touched by the helper handlers and the poll
tick.  `helperProcess` records whether a child-process handle is held;
`onShortcutSet` whether a shortcut callback is registered. -/
structure CMState where
  helperProcess : Bool
  helperReady : Bool
  helperCursorX : Int
  helperCursorY : Int
  isWayland : Bool
  isOverInteractive : Bool
  lastForceReset : Int
  lastLog : Int
  onShortcutSet : Bool
deriving DecidableEq, Repr

/-- The externally visible actions of the monitor: spawning or killing the
helper, a `setIgnoreMouseEvents` call on the window, streaming a local
cursor position to the renderer, and invoking the shortcut callback. -/
inductive CMAction where
  | spawnHelper
  | killHelper
  | setIgnore (ignore : Bool)
  | sendCursorPosition (x y : Int)
  | invokeShortcut (name : String)
deriving DecidableEq, Repr

/-- The `exit` handler installed on the helper process: clears the process
handle and the ready flag; nothing else, and no outward action. -/
def onHelperExit (s : CMState) : CMState × List CMAction :=
  ({ s with helperProcess := false, helperReady := false }, [])

/-- The `error` handler installed on the helper process: identical effect to
the exit handler. -/
def onHelperError (s : CMState) : CMState × List CMAction :=
  ({ s with helperProcess := false, helperReady := false }, [])

/-- `handleHelperEvent(line)`: parse the line and dispatch on `type`.  A
parse failure is swallowed by the surrounding `try`/`catch` and changes
nothing.  `cursor` updates the tracked position only when both `x` and `y`
are present; `shortcut` invokes the callback when `name` is truthy (a
non-empty string) and a callback is registered; `ready` sets the ready
flag; `click`, `heartbeat` and `error` only log. -/
def handleHelperEvent (line : HelperLine) (s : CMState) :
    CMState × List CMAction :=
  match line with
  | .malformed => (s, [])
  | .parsed e =>
    match e.type with
    | .ready => ({ s with helperReady := true }, [])
    | .cursor =>
      match e.x, e.y with
      | some ex, some ey =>
        ({ s with helperCursorX := ex, helperCursorY := ey }, [])
      | _, _ => (s, [])
    | .shortcut =>
      match e.name with
      | some n => if n ≠ "" && s.onShortcutSet then (s, [.invokeShortcut n]) else (s, [])
      | none => (s, [])
    | .click => (s, [])
    | .heartbeat => (s, [])
    | .error => (s, [])
    | .other => (s, [])

/-- The stream consumer: each line is handled independently, in order,
accumulating the actions. -/
def processHelperLines (lines : List HelperLine) (s : CMState) :
    CMState × List CMAction :=
  match lines with
  | [] => (s, [])
  | l :: rest =>
    let (s', acts) := handleHelperEvent l s
    let (s'', acts') := processHelperLines rest s'
    (s'', acts ++ acts')

/-- `getCursorPosition()`: the helper's tracked position when on Wayland
with the helper ready, otherwise Electron's `screen.getCursorScreenPoint()`
(passed in as `electronCursor`). -/
def getCursorPosition (s : CMState) (electronCursor : Int × Int) : Int × Int :=
  if s.isWayland && s.helperReady then (s.helperCursorX, s.helperCursorY)
  else electronCursor

/-- The per-tick inputs of `checkCursor`: the window bounds origin,
Electron's cursor query result, and the current time. -/
structure TickEnv where
  boundsX : Int
  boundsY : Int
  electronCursor : Int × Int
  now : Int
deriving DecidableEq, Repr

/-- The poll interval after which the interactive branch re-issues its
`setIgnoreMouseEvents(false)` call. -/
def FORCE_RESET_INTERVAL : Int := 200

/-- One `checkCursor` tick: stream the window-local cursor position, then —
over an interactive element — re-enable mouse events at most every
`FORCE_RESET_INTERVAL`, and otherwise enable click-through on every tick. -/
def checkCursor (env : TickEnv) (s : CMState) : CMState × List CMAction :=
  let cursor := getCursorPosition s env.electronCursor
  let s := if env.now - s.lastLog > 2000 then { s with lastLog := env.now } else s
  let localX := cursor.1 - env.boundsX
  let localY := cursor.2 - env.boundsY
  let sendAct : CMAction := .sendCursorPosition localX localY
  if s.isOverInteractive then
    if env.now - s.lastForceReset > FORCE_RESET_INTERVAL then
      ({ s with lastForceReset := env.now }, [sendAct, .setIgnore false])
    else
      (s, [sendAct])
  else
    (s, [sendAct, .setIgnore true])

end Monitor

namespace Reader

/-- Modelled from the spec: the Device Reader's screen bounds, read once at
startup (`screen_bounds: \x7bwidth, height\x7d`).  The Rust helper's source
(`foxy-input-helper`) is not under the checked tree; only its README and the
spec describe it. -/
structure ScreenBounds where
  width : Int
  height : Int
deriving DecidableEq, Repr

/-- Modelled from the spec: the reconstructed absolute cursor position. -/
structure Cursor where
  x : Int
  y : Int
deriving DecidableEq, Repr

/-- Modelled from the spec: clamp a coordinate into `[0, bound]`. -/
def clamp (v bound : Int) : Int :=
  max 0 (min v bound)

/-- Modelled from the spec: accumulate one relative motion event into the
cursor, each update clamped to the screen bounds. -/
def applyDelta (b : ScreenBounds) (c : Cursor) (d : Int × Int) : Cursor :=
  { x := clamp (c.x + d.1) b.width, y := clamp (c.y + d.2) b.height }

/-- Modelled from the spec: the cursor positions reached while processing a
sequence of relative motion deltas, including the starting position. -/
def cursorTrace (b : ScreenBounds) (c : Cursor) : List (Int × Int) → List Cursor
  | [] => [c]
  | d :: rest => c :: cursorTrace b (applyDelta b c d) rest

/-- A cursor position within `[0, width] × [0, height]`. -/
def inBounds (b : ScreenBounds) (c : Cursor) : Prop :=
  0 ≤ c.x ∧ c.x ≤ b.width ∧ 0 ≤ c.y ∧ c.y ≤ b.height

instance (b : ScreenBounds) (c : Cursor) : Decidable (inBounds b c) := by
  unfold inBounds
  infer_instance

end Reader

namespace Interactions

/-- A visible 100 by 100 element at the window origin, used as a concrete
region in example ticks. -/
def squareElem (name : String) : Element :=
  { id := name, hidden := false,
    rect := { left := 0, right := 100, top := 0, bottom := 100 } }

/-- A concrete tick: settings panel open, cursor at (900, 900) away from
every region, no drag. -/
def settingsOpenEnv : PollEnv :=
  { cursorX := 900, cursorY := 900, winX := 0, winY := 0,
    isDragging := false, character := none, backpack := none,
    speechBubble := none, chatInputContainer := none,
    settingsPanel := some (squareElem "settings-panel") }

/-- A concrete tick: drag in progress, cursor inside the character region. -/
def dragEnv : PollEnv :=
  { cursorX := 50, cursorY := 50, winX := 0, winY := 0,
    isDragging := true, character := some (squareElem "character"),
    backpack := none, speechBubble := none, chatInputContainer := none,
    settingsPanel := none }

/-- A concrete tick: no drag, no settings panel, no region present. -/
def emptyEnv : PollEnv :=
  { cursorX := 500, cursorY := 500, winX := 0, winY := 0,
    isDragging := false, character := none, backpack := none,
    speechBubble := none, chatInputContainer := none,
    settingsPanel := none }

/-- When not dragging, the poll tick always issues exactly one call. -/
theorem checkMousePosition_isSome (env : PollEnv) (h : env.isDragging = false) :
    ∃ c, checkMousePosition env = some c := by
  unfold checkMousePosition
  rw [if_neg (by simp [h])]
  split
  · exact ⟨.ignoreOff, rfl⟩
  · split
    · exact ⟨.ignoreOff, rfl⟩
    · exact ⟨.ignoreOnForward, rfl⟩

/-- When not dragging, the tick's call reduces to the settings test followed
by the hit test. -/
theorem checkMousePosition_eq (env : PollEnv) (h : env.isDragging = false) :
    checkMousePosition env =
      (if settingsOpen env = true then some .ignoreOff
       else if someRegionHit env = true then some .ignoreOff
       else some .ignoreOnForward) := by
  unfold checkMousePosition settingsOpen someRegionHit
  rw [if_neg (by simp [h])]

end Interactions

/-- C1: on every poll tick with no drag in progress, the capture flag passed
to the window equals the disjunction "some interactive region (character,
backpack, speech bubble, chat input) is visible and contains the cursor
sample" OR "the settings panel is open"; with the panel open capture is true
regardless of cursor position, and with it closed and no region hit capture
is false. -/
theorem c1_capture_flag_is_region_hit_or_settings_open
    (env : Interactions.PollEnv) (h : env.isDragging = false) :
    (Interactions.checkMousePosition env).map Interactions.MouseCall.captures
      = some (Interactions.someRegionHit env || Interactions.settingsOpen env) := by
  rw [Interactions.checkMousePosition_eq env h]
  cases hso : Interactions.settingsOpen env <;>
    cases hhit : Interactions.someRegionHit env <;>
      simp [hso, hhit, Interactions.MouseCall.captures]

/-- Witness for C1 at a concrete tick: settings panel open, cursor away from
every region, no drag — capture is true. -/
theorem c1_witness :
    Interactions.settingsOpenEnv.isDragging = false ∧
    (Interactions.checkMousePosition Interactions.settingsOpenEnv).map
      Interactions.MouseCall.captures = some true := by
  refine ⟨rfl, ?_⟩
  rw [c1_capture_flag_is_region_hit_or_settings_open Interactions.settingsOpenEnv rfl]
  decide

/-- C2 counterexample: a tick during a drag issues no `setIgnoreMouseEvents`
call at all, so with pass-through previously applied the window is not made
capturing — the arbitration does not force capture = true while dragging;
here the claim "capture = true on every dragging tick" fails with the
cursor even inside the character region. -/
theorem c2_counterexample_drag_tick_forces_nothing :
    Interactions.dragEnv.isDragging = true ∧
    Interactions.checkMousePosition Interactions.dragEnv = none ∧
    Interactions.appliedAfter Interactions.dragEnv false ≠ true := by
  exact ⟨rfl, rfl, by decide⟩

/-- C2 amended: while the drag-active flag is asserted, the poll tick issues
no mode-change call at all, leaving the previously applied capture flag
unchanged for every cursor position; in particular a capture state of true
entering the drag remains true throughout it. -/
theorem c2_amended_drag_tick_preserves_applied_capture
    (env : Interactions.PollEnv) (applied : Bool)
    (h : env.isDragging = true) :
    Interactions.checkMousePosition env = none ∧
    Interactions.appliedAfter env applied = applied := by
  have hc : Interactions.checkMousePosition env = none := by
    unfold Interactions.checkMousePosition
    rw [if_pos (by simp [h])]
  exact ⟨hc, by unfold Interactions.appliedAfter; rw [hc]⟩

/-- Witness for C2's amended claim at a concrete dragging tick. -/
theorem c2_amended_witness :
    Interactions.checkMousePosition Interactions.dragEnv = none ∧
    Interactions.appliedAfter Interactions.dragEnv true = true :=
  c2_amended_drag_tick_preserves_applied_capture Interactions.dragEnv true rfl

/-- C3 counterexample: two consecutive poll ticks over the identical cursor
sample and region set issue two native `setIgnoreMouseEvents` calls, not at
most one — the loop performs no change detection against the previously
applied decision. -/
theorem c3_counterexample_redundant_native_calls :
    Interactions.pollCalls Interactions.emptyEnv 2
      = [.ignoreOnForward, .ignoreOnForward] ∧
    ¬ (Interactions.pollCalls Interactions.emptyEnv 2).length ≤ 1 := by
  exact ⟨rfl, by decide⟩

/-- C3 amended: repeatedly feeding the arbitration the same cursor sample
and region set yields the same capture decision on every tick, but the
native `setIgnoreMouseEvents` call is re-issued on every poll tick — `n`
ticks issue `n` identical calls, with no suppression of redundant calls. -/
theorem c3_amended_same_decision_called_every_tick
    (env : Interactions.PollEnv) (n : Nat) (h : env.isDragging = false) :
    ∃ c, Interactions.checkMousePosition env = some c ∧
      Interactions.pollCalls env n = List.replicate n c := by
  obtain ⟨c, hc⟩ := Interactions.checkMousePosition_isSome env h
  refine ⟨c, hc, ?_⟩
  induction n with
  | zero => rfl
  | succ n ih =>
    unfold Interactions.pollCalls
    rw [hc, ih, List.replicate_succ]

/-- Witness for C3's amended claim: three identical ticks, three identical
pass-through calls. -/
theorem c3_amended_witness :
    ∃ c, Interactions.checkMousePosition Interactions.emptyEnv = some c ∧
      Interactions.pollCalls Interactions.emptyEnv 3 = List.replicate 3 c :=
  c3_amended_same_decision_called_every_tick Interactions.emptyEnv 3 rfl

namespace Monitor

/-- A concrete monitor state: Wayland session, helper running and ready,
cursor not over an interactive element. -/
def runningState : CMState :=
  { helperProcess := true, helperReady := true, helperCursorX := 100,
    helperCursorY := 120, isWayland := true, isOverInteractive := false,
    lastForceReset := 0, lastLog := 0, onShortcutSet := true }

/-- A concrete tick environment for `checkCursor`. -/
def sampleTick : TickEnv :=
  { boundsX := 10, boundsY := 20, electronCursor := (300, 400), now := 5000 }

/-- A concrete cursor event missing its `y` field. -/
def cursorEventNoY : HelperEvent :=
  { type := .cursor, x := some 7, y := none, name := none, message := none,
    miceCount := none, keyboardsCount := none }

/-- A concrete heartbeat event. -/
def heartbeatEvent : HelperEvent :=
  { type := .heartbeat, x := none, y := none, name := none, message := none,
    miceCount := none, keyboardsCount := none }

end Monitor

/-- C4 counterexample: at a concrete running state, the helper exit handler
emits no action at all — in particular it does not respawn the reader — and
the very next `checkCursor` tick on the post-exit state still issues
`setIgnoreMouseEvents(true)` (pass-through) because the cursor is not over
an interactive element: the monitor does not fall back to always-capturing
behaviour. -/
theorem c4_counterexample_exit_no_respawn_no_capture_fallback :
    (Monitor.onHelperExit Monitor.runningState).2 = [] ∧
    Monitor.CMAction.spawnHelper ∉ (Monitor.onHelperExit Monitor.runningState).2 ∧
    Monitor.CMAction.setIgnore true ∈
      (Monitor.checkCursor Monitor.sampleTick
        (Monitor.onHelperExit Monitor.runningState).1).2 := by
  refine ⟨rfl, by decide, by decide⟩

/-- C4 amended: when the helper process exits (or errors), the monitor only
clears the process handle and the ready flag, performing no outward action —
no respawn is attempted; afterwards `getCursorPosition` falls back to
Electron's `screen.getCursorScreenPoint()`, and capture arbitration keeps
following `isOverInteractive`, so a tick with the cursor not over an
interactive element still applies pass-through. -/
theorem c4_amended_exit_clears_helper_without_respawn (s : Monitor.CMState) :
    Monitor.onHelperExit s
      = ({ s with helperProcess := false, helperReady := false }, []) ∧
    Monitor.onHelperError s
      = ({ s with helperProcess := false, helperReady := false }, []) ∧
    (∀ ec, Monitor.getCursorPosition (Monitor.onHelperExit s).1 ec = ec) ∧
    (∀ env : Monitor.TickEnv, s.isOverInteractive = false →
      (Monitor.checkCursor env (Monitor.onHelperExit s).1).2
        = [.sendCursorPosition (env.electronCursor.1 - env.boundsX)
            (env.electronCursor.2 - env.boundsY), .setIgnore true]) := by
  refine ⟨rfl, rfl, ?_, ?_⟩
  · intro ec
    simp [Monitor.getCursorPosition, Monitor.onHelperExit]
  · intro env h
    simp only [Monitor.checkCursor, Monitor.getCursorPosition,
      Monitor.onHelperExit]
    split <;> simp [h]

/-- Witness for C4's amended claim at the concrete running state. -/
theorem c4_amended_witness :
    (∀ ec, Monitor.getCursorPosition
      (Monitor.onHelperExit Monitor.runningState).1 ec = ec) ∧
    (Monitor.checkCursor Monitor.sampleTick
      (Monitor.onHelperExit Monitor.runningState).1).2
      = [.sendCursorPosition 290 380, .setIgnore true] :=
  ⟨(c4_amended_exit_clears_helper_without_respawn Monitor.runningState).2.2.1,
   (c4_amended_exit_clears_helper_without_respawn Monitor.runningState).2.2.2
     Monitor.sampleTick rfl⟩

/-- C5: a malformed (unparseable) line from the device reader leaves the
monitor's state unchanged and produces no action, and discarding it does not
affect how any subsequent lines are processed: consuming a stream that
starts with a malformed line is the same as consuming the rest of the
stream. -/
theorem c5_malformed_line_discarded_stream_resilient
    (s : Monitor.CMState) (rest : List Monitor.HelperLine) :
    Monitor.handleHelperEvent .malformed s = (s, []) ∧
    Monitor.processHelperLines (.malformed :: rest) s
      = Monitor.processHelperLines rest s := by
  refine ⟨rfl, ?_⟩
  rcases hr : Monitor.processHelperLines rest s with ⟨s', acts⟩
  simp [Monitor.processHelperLines, Monitor.handleHelperEvent, hr]

/-- C10: handling one helper event line mutates only the state named by its
variant — a `cursor` event with both coordinates present updates exactly
`helperCursorX`/`helperCursorY`, a cursor event missing either field changes
nothing, `heartbeat` and `click` events change no state and emit no action,
and no event other than `ready` ever modifies `helperReady`. -/
theorem c10_handler_frame_effects (e : Monitor.HelperEvent) (s : Monitor.CMState) :
    (e.type = .cursor →
      (∀ ex ey, e.x = some ex → e.y = some ey →
        Monitor.handleHelperEvent (.parsed e) s
          = ({ s with helperCursorX := ex, helperCursorY := ey }, [])) ∧
      ((e.x = none ∨ e.y = none) →
        Monitor.handleHelperEvent (.parsed e) s = (s, []))) ∧
    (e.type = .heartbeat → Monitor.handleHelperEvent (.parsed e) s = (s, [])) ∧
    (e.type = .click → Monitor.handleHelperEvent (.parsed e) s = (s, [])) ∧
    (e.type = .ready → Monitor.handleHelperEvent (.parsed e) s
      = ({ s with helperReady := true }, [])) ∧
    (e.type ≠ .ready →
      (Monitor.handleHelperEvent (.parsed e) s).1.helperReady = s.helperReady) := by
  refine ⟨?_, ?_, ?_, ?_, ?_⟩
  · intro ht
    constructor
    · intro ex ey hx hy
      simp [Monitor.handleHelperEvent, ht, hx, hy]
    · intro hxy
      rcases hxy with hx | hy
      · cases hy : e.y <;> simp [Monitor.handleHelperEvent, ht, hx, hy]
      · cases hx : e.x <;> simp [Monitor.handleHelperEvent, ht, hx, hy]
  · intro ht
    simp [Monitor.handleHelperEvent, ht]
  · intro ht
    simp [Monitor.handleHelperEvent, ht]
  · intro ht
    simp [Monitor.handleHelperEvent, ht]
  · intro ht
    cases hty : e.type
    · exact absurd hty ht
    · cases hx : e.x <;> cases hy : e.y <;>
        simp [Monitor.handleHelperEvent, hty, hx, hy]
    · cases hn : e.name
      · simp [Monitor.handleHelperEvent, hty, hn]
      · simp only [Monitor.handleHelperEvent, hty, hn]
        split <;> simp
    · simp [Monitor.handleHelperEvent, hty]
    · simp [Monitor.handleHelperEvent, hty]
    · simp [Monitor.handleHelperEvent, hty]
    · simp [Monitor.handleHelperEvent, hty]

/-- Witness for C10 at concrete events: a cursor event missing `y` leaves
the state untouched, and a heartbeat changes nothing. -/
theorem c10_witness :
    Monitor.handleHelperEvent (.parsed Monitor.cursorEventNoY)
      Monitor.runningState = (Monitor.runningState, []) ∧
    Monitor.handleHelperEvent (.parsed Monitor.heartbeatEvent)
      Monitor.runningState = (Monitor.runningState, []) :=
  ⟨((c10_handler_frame_effects Monitor.cursorEventNoY Monitor.runningState).1
      rfl).2 (Or.inr rfl),
   (c10_handler_frame_effects Monitor.heartbeatEvent Monitor.runningState).2.1
      rfl⟩

namespace Wiggle

/-- An ambient environment with no gate active and the window centred at
(500, 500). -/
def calmEnv : WiggleEnv :=
  { isWindowLocked := false, screensaverMode := false, dragModeActive := false,
    settingsPanelOpen := false, windowPosX := 400, windowPosY := 400,
    windowWidth := 200, windowHeight := 200 }

/-- `calmEnv` with the settings panel open and nothing else changed. -/
def settingsOnlyEnv : WiggleEnv :=
  { calmEnv with settingsPanelOpen := true }

/-- `calmEnv` with the window locked. -/
def lockedEnv : WiggleEnv :=
  { calmEnv with isWindowLocked := true }

/-- The `i`-th sample of a synthetic horizontal oscillation near the window
centre: x alternates between 500 and 510 every 50 ms. -/
def wiggleSample (i : Nat) : Sample :=
  { x := if i % 2 = 0 then 500 else 510, y := 500, t := 100000 + 50 * (i : Int) }

/-- Fourteen oscillating samples: the wiggle threshold is crossed at the
eleventh and the oscillation continues afterwards. -/
def wiggleRun : List Sample :=
  (List.range 14).map wiggleSample

/-- The detector state just after an evasion at time 100500. -/
def postEvadeState : WiggleState :=
  { history := [], lastEvasionTime := 100500, evasionCount := 1 }

/-- A detector state holding eleven oscillating samples, ready to trigger. -/
def readyState : WiggleState :=
  { history := (List.range 11).map wiggleSample, lastEvasionTime := 0,
    evasionCount := 0 }

/-- `checkWiggleAndEvade` never modifies the history. -/
theorem checkWiggleAndEvade_history (env : WiggleEnv) (st : WiggleState)
    (x y now : Int) :
    (checkWiggleAndEvade env st x y now).history = st.history := by
  simp only [checkWiggleAndEvade, performEvasion]
  repeat' split
  all_goals rfl

/-- During the cooldown, `checkWiggleAndEvade` returns its state
unchanged. -/
theorem checkWiggleAndEvade_gated (env : WiggleEnv) (st : WiggleState)
    (x y now : Int) (h : now - st.lastEvasionTime < EVASION_COOLDOWN) :
    checkWiggleAndEvade env st x y now = st := by
  unfold checkWiggleAndEvade
  rw [if_pos h]

/-- `checkWiggleAndEvade` either leaves the evasion fields unchanged or
performs exactly one evasion stamped with the current time. -/
theorem checkWiggleAndEvade_cases (env : WiggleEnv) (st : WiggleState)
    (x y now : Int) :
    ((checkWiggleAndEvade env st x y now).lastEvasionTime = st.lastEvasionTime ∧
     (checkWiggleAndEvade env st x y now).evasionCount = st.evasionCount) ∨
    ((checkWiggleAndEvade env st x y now).lastEvasionTime = now ∧
     (checkWiggleAndEvade env st x y now).evasionCount = st.evasionCount + 1) := by
  simp only [checkWiggleAndEvade, performEvasion]
  repeat' split
  all_goals simp

/-- The listener step's history is exactly the maintained history. -/
theorem processCursorSample_history (env : WiggleEnv) (st : WiggleState)
    (s : Sample) :
    (processCursorSample env st s).history = updatedHistory st.history s := by
  simp only [processCursorSample]
  split
  · rw [checkWiggleAndEvade_history]
  · rfl

/-- The listener step either leaves the evasion fields unchanged or performs
exactly one evasion stamped with the sample's time. -/
theorem processCursorSample_cases (env : WiggleEnv) (st : WiggleState)
    (s : Sample) :
    ((processCursorSample env st s).lastEvasionTime = st.lastEvasionTime ∧
     (processCursorSample env st s).evasionCount = st.evasionCount) ∨
    ((processCursorSample env st s).lastEvasionTime = s.t ∧
     (processCursorSample env st s).evasionCount = st.evasionCount + 1) := by
  simp only [processCursorSample]
  split
  · have := checkWiggleAndEvade_cases env
      { st with history := updatedHistory st.history s } s.x s.y s.t
    simpa using this
  · left
    exact ⟨rfl, rfl⟩

/-- A listener step arriving during the cooldown never evades. -/
theorem processCursorSample_gated (env : WiggleEnv) (st : WiggleState)
    (s : Sample) (h : s.t - st.lastEvasionTime < EVASION_COOLDOWN) :
    (processCursorSample env st s).lastEvasionTime = st.lastEvasionTime ∧
    (processCursorSample env st s).evasionCount = st.evasionCount := by
  simp only [processCursorSample]
  split
  · rw [checkWiggleAndEvade_gated env
      { st with history := updatedHistory st.history s } s.x s.y s.t (by exact h)]
    exact ⟨rfl, rfl⟩
  · exact ⟨rfl, rfl⟩

/-- Dropping the head of an overfull list restores the bound. -/
theorem lengthBound (l : List Sample) (n : Nat) (h : l.length ≤ n + 1) :
    (if l.length > n then l.drop 1 else l).length ≤ n := by
  split
  · rw [List.length_drop]
    omega
  · omega

/-- The maintained history never exceeds the size bound. -/
theorem updatedHistory_length (hist0 : List Sample) (s : Sample)
    (h : hist0.length ≤ WIGGLE_HISTORY_SIZE) :
    (updatedHistory hist0 s).length ≤ WIGGLE_HISTORY_SIZE := by
  simp only [updatedHistory]
  apply lengthBound
  calc ((hist0 ++ [s]).filter fun p => decide (s.t - p.t < WIGGLE_TIME_WINDOW)).length
      ≤ (hist0 ++ [s]).length := List.length_filter_le _ _
    _ = hist0.length + 1 := by simp
    _ ≤ WIGGLE_HISTORY_SIZE + 1 := by omega

/-- Every entry of the maintained history is newer than the time window. -/
theorem updatedHistory_recent (hist0 : List Sample) (s : Sample) :
    ∀ p ∈ updatedHistory hist0 s, s.t - p.t < WIGGLE_TIME_WINDOW := by
  intro p hp
  simp only [updatedHistory] at hp
  have hp' : p ∈ (hist0 ++ [s]).filter
      (fun q => decide (s.t - q.t < WIGGLE_TIME_WINDOW)) := by
    split at hp
    · exact List.drop_subset 1 _ hp
    · exact hp
  exact of_decide_eq_true (List.mem_filter.mp hp').2

/-- Over any sample sequence whose times lie in a window shorter than the
cooldown containing the last evasion time, no further evasion occurs. -/
theorem processCursorSamples_gated (env : WiggleEnv) (a b : Int)
    (hab : b - a < EVASION_COOLDOWN) :
    ∀ (samples : List Sample) (st : WiggleState),
      a ≤ st.lastEvasionTime → st.lastEvasionTime ≤ b →
      (∀ s ∈ samples, a ≤ s.t ∧ s.t ≤ b) →
      (processCursorSamples env st samples).lastEvasionTime = st.lastEvasionTime ∧
      (processCursorSamples env st samples).evasionCount = st.evasionCount := by
  intro samples
  induction samples with
  | nil => intro st _ _ _; exact ⟨rfl, rfl⟩
  | cons s rest ih =>
    intro st h1 h2 hmem
    have hs := hmem s (List.mem_cons_self _ _)
    have hgate : s.t - st.lastEvasionTime < EVASION_COOLDOWN := by
      have hle : s.t - st.lastEvasionTime ≤ b - a := by omega
      exact lt_of_le_of_lt hle hab
    have hstep := processCursorSample_gated env st s hgate
    have hrest := ih (processCursorSample env st s)
      (by rw [hstep.1]; exact h1) (by rw [hstep.1]; exact h2)
      (fun s' hs' => hmem s' (List.mem_cons_of_mem _ hs'))
    have hfold : processCursorSamples env st (s :: rest)
        = processCursorSamples env (processCursorSample env st s) rest := rfl
    rw [hfold, hrest.1, hrest.2, hstep.1, hstep.2]
    exact ⟨rfl, rfl⟩

/-- Over any sample sequence whose times lie in a window shorter than the
cooldown, at most one evasion occurs. -/
theorem processCursorSamples_at_most_one (env : WiggleEnv) (a b : Int)
    (hab : b - a < EVASION_COOLDOWN) :
    ∀ (samples : List Sample) (st : WiggleState),
      (∀ s ∈ samples, a ≤ s.t ∧ s.t ≤ b) →
      (processCursorSamples env st samples).evasionCount ≤ st.evasionCount + 1 := by
  intro samples
  induction samples with
  | nil => intro st _; exact Nat.le_succ _
  | cons s rest ih =>
    intro st hmem
    have hfold : processCursorSamples env st (s :: rest)
        = processCursorSamples env (processCursorSample env st s) rest := rfl
    rcases processCursorSample_cases env st s with ⟨h1, h2⟩ | ⟨h1, h2⟩
    · have hr := ih (processCursorSample env st s)
        (fun s' hs' => hmem s' (List.mem_cons_of_mem _ hs'))
      rw [hfold]
      omega
    · have hs := hmem s (List.mem_cons_self _ _)
      obtain ⟨hr1, hr2⟩ := processCursorSamples_gated env a b hab rest
        (processCursorSample env st s)
        (by rw [h1]; exact hs.1) (by rw [h1]; exact hs.2)
        (fun s' hs' => hmem s' (List.mem_cons_of_mem _ hs'))
      rw [hfold]
      omega

end Wiggle

set_option maxRecDepth 10000 in
/-- C6 amended: a qualifying oscillation that continues past its eleventh
sample (deltas of magnitude 10 alternating sign every 50 ms near the window
centre, continuing past the trigger) yields exactly one evasion; in general
`checkWiggleAndEvade` is inert whenever the cooldown has not elapsed since
the last evasion, and over any sample sequence confined to a time window
shorter than the cooldown at most one evasion occurs, however long the
oscillation continues. -/
theorem c6_wiggle_threshold_one_evasion_then_cooldown :
    (Wiggle.processCursorSamples Wiggle.calmEnv Wiggle.initWiggleState
      Wiggle.wiggleRun).evasionCount = 1 ∧
    (∀ (env : Wiggle.WiggleEnv) (st : Wiggle.WiggleState) (x y now : Int),
      now - st.lastEvasionTime < Wiggle.EVASION_COOLDOWN →
      Wiggle.checkWiggleAndEvade env st x y now = st) ∧
    (∀ (env : Wiggle.WiggleEnv) (a b : Int), b - a < Wiggle.EVASION_COOLDOWN →
      ∀ (samples : List Wiggle.Sample) (st : Wiggle.WiggleState),
        (∀ s ∈ samples, a ≤ s.t ∧ s.t ≤ b) →
        (Wiggle.processCursorSamples env st samples).evasionCount
          ≤ st.evasionCount + 1) :=
  ⟨by decide,
   fun env st x y now h => Wiggle.checkWiggleAndEvade_gated env st x y now h,
   fun env a b hab => Wiggle.processCursorSamples_at_most_one env a b hab⟩

set_option maxRecDepth 10000 in
/-- Witness for C6: the synthetic run evades exactly once, and a sample
arriving 50 ms after an evasion is ignored by the cooldown gate. -/
theorem c6_witness :
    (Wiggle.processCursorSamples Wiggle.calmEnv Wiggle.initWiggleState
      Wiggle.wiggleRun).evasionCount = 1 ∧
    Wiggle.checkWiggleAndEvade Wiggle.calmEnv Wiggle.postEvadeState
      510 500 100550 = Wiggle.postEvadeState :=
  ⟨c6_wiggle_threshold_one_evasion_then_cooldown.1,
   c6_wiggle_threshold_one_evasion_then_cooldown.2.1 Wiggle.calmEnv
     Wiggle.postEvadeState 510 500 100550 (by decide)⟩

set_option maxRecDepth 10000 in
/-- C7 counterexample: with the settings panel open and no other condition
active, a qualifying oscillation still triggers an evasion —
`checkWiggleAndEvade` never consults the modal settings panel, so "no
evasion while a modal panel is open" fails. -/
theorem c7_counterexample_modal_panel_does_not_gate_evasion :
    Wiggle.settingsOnlyEnv.settingsPanelOpen = true ∧
    Wiggle.settingsOnlyEnv.isWindowLocked = false ∧
    Wiggle.settingsOnlyEnv.screensaverMode = false ∧
    Wiggle.settingsOnlyEnv.dragModeActive = false ∧
    (Wiggle.checkWiggleAndEvade Wiggle.settingsOnlyEnv Wiggle.readyState
      500 500 100500).evasionCount = Wiggle.readyState.evasionCount + 1 :=
  ⟨rfl, rfl, rfl, rfl, by decide⟩

/-- C7 amended: an evasion never triggers while the window is locked (the
typing/busy lock), while screensaver mode is active, or while drag mode is
active — `checkWiggleAndEvade` then returns its state unchanged for every
cursor-sample sequence; the settings panel being open is not among the
gating conditions. -/
theorem c7_amended_lock_screensaver_dragmode_gate_evasion
    (env : Wiggle.WiggleEnv) (st : Wiggle.WiggleState) (x y now : Int)
    (h : env.isWindowLocked = true ∨ env.screensaverMode = true ∨
      env.dragModeActive = true) :
    Wiggle.checkWiggleAndEvade env st x y now = st := by
  unfold Wiggle.checkWiggleAndEvade
  split
  · rfl
  · split
    · rfl
    · split
      · rfl
      · split
        · rfl
        · rcases h with h | h | h <;> simp_all

/-- Witness for C7's amended claim: with the window locked, a state holding
a qualifying oscillation does not evade. -/
theorem c7_amended_witness :
    Wiggle.checkWiggleAndEvade Wiggle.lockedEnv Wiggle.readyState
      500 500 100500 = Wiggle.readyState :=
  c7_amended_lock_screensaver_dragmode_gate_evasion Wiggle.lockedEnv
    Wiggle.readyState 500 500 100500 (Or.inl rfl)

/-- C8: after processing a cursor sample from a history within the size
bound, every retained entry is newer than the time window (pruning happens
before evaluation) and the history length still does not exceed
`WIGGLE_HISTORY_SIZE` = 20, the oldest entry being dropped on overflow. -/
theorem c8_history_pruned_and_bounded (env : Wiggle.WiggleEnv)
    (st : Wiggle.WiggleState) (s : Wiggle.Sample)
    (h : st.history.length ≤ Wiggle.WIGGLE_HISTORY_SIZE) :
    (Wiggle.processCursorSample env st s).history.length
      ≤ Wiggle.WIGGLE_HISTORY_SIZE ∧
    ∀ p ∈ (Wiggle.processCursorSample env st s).history,
      s.t - p.t < Wiggle.WIGGLE_TIME_WINDOW := by
  rw [Wiggle.processCursorSample_history]
  exact ⟨Wiggle.updatedHistory_length st.history s h,
    Wiggle.updatedHistory_recent st.history s⟩

set_option maxRecDepth 10000 in
/-- Witness for C8 at a concrete step from the eleven-sample state. -/
theorem c8_witness :
    Wiggle.readyState.history.length ≤ Wiggle.WIGGLE_HISTORY_SIZE ∧
    ((Wiggle.processCursorSample Wiggle.calmEnv Wiggle.readyState
        (Wiggle.wiggleSample 11)).history.length ≤ Wiggle.WIGGLE_HISTORY_SIZE ∧
     ∀ p ∈ (Wiggle.processCursorSample Wiggle.calmEnv Wiggle.readyState
        (Wiggle.wiggleSample 11)).history,
       (Wiggle.wiggleSample 11).t - p.t < Wiggle.WIGGLE_TIME_WINDOW) :=
  ⟨by decide, c8_history_pruned_and_bounded Wiggle.calmEnv Wiggle.readyState
    (Wiggle.wiggleSample 11) (by decide)⟩

namespace Reader

/-- A concrete 1920 by 1080 screen. -/
def demoBounds : ScreenBounds :=
  { width := 1920, height := 1080 }

/-- A concrete centred starting cursor. -/
def demoStart : Cursor :=
  { x := 960, y := 540 }

/-- Concrete motion deltas that overshoot every screen edge. -/
def demoDeltas : List (Int × Int) :=
  [(10000, -10000), (-30000, 5), (0, 99999)]

/-- Clamping lands in `[0, bound]` whenever the bound is nonnegative. -/
theorem clamp_mem (v bound : Int) (hb : 0 ≤ bound) :
    0 ≤ clamp v bound ∧ clamp v bound ≤ bound := by
  unfold clamp
  exact ⟨le_max_left 0 _, max_le hb (min_le_right _ _)⟩

/-- One accumulated delta keeps the cursor in bounds. -/
theorem applyDelta_inBounds (b : ScreenBounds) (c : Cursor) (d : Int × Int)
    (h : inBounds b c) : inBounds b (applyDelta b c d) := by
  obtain ⟨h1, h2, h3, h4⟩ := h
  have hw : (0 : Int) ≤ b.width := le_trans h1 h2
  have hh : (0 : Int) ≤ b.height := le_trans h3 h4
  obtain ⟨hx1, hx2⟩ := clamp_mem (c.x + d.1) b.width hw
  obtain ⟨hy1, hy2⟩ := clamp_mem (c.y + d.2) b.height hh
  exact ⟨hx1, hx2, hy1, hy2⟩

end Reader

/-- C9 (modelled from the spec: the Rust device reader's cursor
accumulation, absent from the checked tree, accumulates each relative
motion delta into the cursor with every update clamped to the screen
bounds): for every delta sequence started in bounds, every position along
the reconstructed trace stays within `[0, screen_width] × [0, screen_height]`. -/
theorem c9_cursor_stays_in_screen_bounds (b : Reader.ScreenBounds) :
    ∀ (deltas : List (Int × Int)) (c : Reader.Cursor), Reader.inBounds b c →
      ∀ p ∈ Reader.cursorTrace b c deltas, Reader.inBounds b p := by
  intro deltas
  induction deltas with
  | nil =>
    intro c h p hp
    simp only [Reader.cursorTrace, List.mem_singleton] at hp
    rw [hp]
    exact h
  | cons d rest ih =>
    intro c h p hp
    simp only [Reader.cursorTrace, List.mem_cons] at hp
    rcases hp with rfl | hp
    · exact h
    · exact ih (Reader.applyDelta b c d) (Reader.applyDelta_inBounds b c d h) p hp

/-- Witness for C9: a centred start on a 1920 by 1080 screen with deltas
overshooting every edge stays in bounds at every step. -/
theorem c9_witness :
    Reader.inBounds Reader.demoBounds Reader.demoStart ∧
    ∀ p ∈ Reader.cursorTrace Reader.demoBounds Reader.demoStart
      Reader.demoDeltas, Reader.inBounds Reader.demoBounds p :=
  ⟨by decide, c9_cursor_stays_in_screen_bounds Reader.demoBounds
    Reader.demoDeltas Reader.demoStart (by decide)⟩

namespace Wiggle

/-- The minimal oscillation meeting the claimed trigger conditions: ten
samples, nine alternating deltas of magnitude 10, eight direction
changes. -/
def shortRun : List Sample :=
  (List.range 10).map wiggleSample

end Wiggle

set_option maxRecDepth 10000 in
/-- C6 counterexample: a ten-sample oscillation meets every condition the
claim states — nine deltas of magnitude 10 (at least the jitter minimum)
alternating sign eight times (the threshold), all samples within the time
window of the last one and within the proximity radius, no gate active and
no cooldown pending — yet the run triggers zero evasions, because the
listener only evaluates the detector once more than ten samples are
retained. -/
theorem c6_counterexample_minimal_qualifying_run_never_evades :
    Wiggle.directionChanges Wiggle.shortRun = Wiggle.WIGGLE_THRESHOLD ∧
    (∀ d ∈ Wiggle.deltasX Wiggle.shortRun, d.natAbs = 10) ∧
    (Wiggle.deltasX Wiggle.shortRun).length = 9 ∧
    (∀ p ∈ Wiggle.shortRun, (100450 : Int) - p.t < Wiggle.WIGGLE_TIME_WINDOW) ∧
    (∀ p ∈ Wiggle.shortRun,
      (2 * p.x - (2 * Wiggle.calmEnv.windowPosX + Wiggle.calmEnv.windowWidth)) *
        (2 * p.x - (2 * Wiggle.calmEnv.windowPosX + Wiggle.calmEnv.windowWidth)) +
      (2 * p.y - (2 * Wiggle.calmEnv.windowPosY + Wiggle.calmEnv.windowHeight)) *
        (2 * p.y - (2 * Wiggle.calmEnv.windowPosY + Wiggle.calmEnv.windowHeight))
        ≤ 4 * (Wiggle.PROXIMITY_THRESHOLD * Wiggle.PROXIMITY_THRESHOLD)) ∧
    (Wiggle.processCursorSamples Wiggle.calmEnv Wiggle.initWiggleState
      Wiggle.shortRun).history = Wiggle.shortRun ∧
    (Wiggle.processCursorSamples Wiggle.calmEnv Wiggle.initWiggleState
      Wiggle.shortRun).evasionCount = 0 := by
  decide
